import Mathlib

/-!
Shallow embedding of the two core components of the oncology-portal
repository: the deterministic cancer-risk scoring engine implemented in the
`POST /api/diagnosis/calculate` handler (src/server/services/textExtractor.ts,
lines 900-977) and the doctor-request state machine / access gate implemented
by the doctor-request route handlers (same file, lines 629-896) over the
storage layer (src/server/storage.ts) and the `doctorRequests` table
(src/shared/schema.ts, lines 94-106).

JavaScript numbers are embedded as exact rationals (`ℚ`); `Math.round` is
embedded as `fun q => ⌊q + 1/2⌋`, which is `Math.round`'s round-half-up
behaviour; `Math.min` is `min`.  Database rows are embedded as Lean
structures, the `doctor_requests` table as a `List DoctorRequest`, and each
route handler as a pure function from the store (plus the session-derived
actor identity) to an outcome and a new store.
-/

/-- The three cancer types accepted by `diagnosisSchema`
(src/shared/schema.ts:329, `z.enum(["liver", "lung", "breast"])`). -/
inductive CancerType
  | liver
  | lung
  | breast
deriving DecidableEq

/-- A validated diagnosis request body, after `diagnosisSchema.parse`
(src/shared/schema.ts:328-334): `tumorSize` positive, `biomarker1` numeric,
`biomarker2` and `additionalFactor` optional strings. -/
structure DiagnosisInput where
  cancerType : CancerType
  tumorSize : ℚ
  biomarker1 : ℚ
  biomarker2 : Option String
  additionalFactor : Option String

/-- The three risk tiers produced by the handler. -/
inductive RiskLevel
  | Low
  | Moderate
  | High
deriving DecidableEq

/-- The JSON object returned by `POST /api/diagnosis/calculate`
(textExtractor.ts:966-972). -/
structure DiagnosisResult where
  probability : ℤ
  riskLevel : RiskLevel
  recommendation : String
  cancerType : String
  tumorSize : ℚ

/-- JavaScript `Math.round`: round half up, i.e. `⌊q + 1/2⌋`. -/
def jsRound (q : ℚ) : ℤ := ⌊q + 1/2⌋

/-- The `smokingMultiplier` local of the lung branch
(textExtractor.ts:923-925): 1.8 for "current", 1.3 for "former", else 1. -/
def smokingMultiplier (additionalFactor : Option String) : ℚ :=
  if additionalFactor = some "current" then 18/10
  else if additionalFactor = some "former" then 13/10
  else 1

/-- The `her2Multiplier` local of the breast branch
(textExtractor.ts:938-939): 1.4 for "positive", else 1. -/
def her2Multiplier (biomarker2 : Option String) : ℚ :=
  if biomarker2 = some "positive" then 14/10 else 1

/-- The raw (pre-round, pre-clamp) probability computed by the `switch` on
`data.cancerType` (textExtractor.ts:909-949), branch for branch. -/
def rawProbability (d : DiagnosisInput) : ℚ :=
  match d.cancerType with
  | .liver =>
      if d.biomarker1 > 400 then 75 + min (d.tumorSize * 3) 20
      else if d.biomarker1 > 20 then 45 + min (d.tumorSize * 2) 25
      else 15 + min d.tumorSize 15
  | .lung =>
      if d.biomarker1 > 10 then
        (60 + min (d.tumorSize * 4) 25) * smokingMultiplier d.additionalFactor
      else if d.biomarker1 > 5 then
        (35 + min (d.tumorSize * 3) 20) * smokingMultiplier d.additionalFactor
      else
        (10 + min (d.tumorSize * 2) 15) * smokingMultiplier d.additionalFactor
  | .breast =>
      if d.biomarker1 > 100 then
        (70 + min (d.tumorSize * 3) 20) * her2Multiplier d.biomarker2
      else if d.biomarker1 > 30 then
        (40 + min (d.tumorSize * 2) 25) * her2Multiplier d.biomarker2
      else
        (12 + min d.tumorSize 15) * her2Multiplier d.biomarker2

/-- The final `probability`: `Math.min(Math.round(probability), 98)`
(textExtractor.ts:952). -/
def riskProbability (d : DiagnosisInput) : ℤ :=
  min (jsRound (rawProbability d)) 98

/-- The risk tier chosen from the clamped probability
(textExtractor.ts:955-964). -/
def riskLevelOf (p : ℤ) : RiskLevel :=
  if p ≥ 70 then .High
  else if p ≥ 40 then .Moderate
  else .Low

/-- Lower-case cancer-type name, as interpolated into the recommendations. -/
def cancerTypeName : CancerType → String
  | .liver => "liver"
  | .lung => "lung"
  | .breast => "breast"

/-- The recommendation string attached to each tier (textExtractor.ts:955-964). -/
def recommendationOf (p : ℤ) (ct : CancerType) : String :=
  if p ≥ 70 then
    "High-risk indicators detected for " ++ cancerTypeName ct ++
      " cancer. Immediate further diagnostic imaging and biopsy recommended. Consider multidisciplinary oncology consultation."
  else if p ≥ 40 then
    "Moderate risk detected. Recommend additional imaging studies (CT/MRI/PET scan) and close monitoring. Follow-up appointment in 2-4 weeks advised."
  else
    "Current biomarkers show low risk. Continue routine surveillance with follow-up testing in 3-6 months. Maintain healthy lifestyle factors."

/-- `data.cancerType.charAt(0).toUpperCase() + data.cancerType.slice(1)`
(textExtractor.ts:970), written out over the three enum values. -/
def capitalizedName : CancerType → String
  | .liver => "Liver"
  | .lung => "Lung"
  | .breast => "Breast"

/-- The whole `POST /api/diagnosis/calculate` computation on validated input
(textExtractor.ts:900-972): the RiskScorer `computeRisk` of the spec. -/
def computeRisk (d : DiagnosisInput) : DiagnosisResult :=
  { probability := riskProbability d
    riskLevel := riskLevelOf (riskProbability d)
    recommendation := recommendationOf (riskProbability d) d.cancerType
    cancerType := capitalizedName d.cancerType
    tumorSize := d.tumorSize }

-- Sanity checks: the four worked examples of spec section 8.
example : (computeRisk ⟨.liver, 5, 500, none, none⟩).probability = 90 := by
  norm_num [computeRisk, riskProbability, jsRound, rawProbability]
example : (computeRisk ⟨.liver, 5, 500, none, none⟩).riskLevel = .High := by
  norm_num [computeRisk, riskProbability, jsRound, rawProbability, riskLevelOf]
example : (computeRisk ⟨.lung, 1, 3, none, some "current"⟩).probability = 22 := by
  norm_num [computeRisk, riskProbability, jsRound, rawProbability, smokingMultiplier]
example : (computeRisk ⟨.lung, 1, 3, none, some "current"⟩).riskLevel = .Low := by
  norm_num [computeRisk, riskProbability, jsRound, rawProbability, smokingMultiplier, riskLevelOf]
example : (computeRisk ⟨.breast, 4, 150, some "positive", none⟩).probability = 98 := by
  norm_num [computeRisk, riskProbability, jsRound, rawProbability, her2Multiplier]
example : (computeRisk ⟨.breast, 4, 150, some "positive", none⟩).riskLevel = .High := by
  norm_num [computeRisk, riskProbability, jsRound, rawProbability, her2Multiplier, riskLevelOf]
example : (computeRisk ⟨.breast, 2, 20, none, none⟩).probability = 14 := by
  simp [computeRisk, riskProbability, jsRound, rawProbability, her2Multiplier]
  norm_num
example : (computeRisk ⟨.breast, 2, 20, none, none⟩).riskLevel = .Low := by
  simp [computeRisk, riskProbability, jsRound, rawProbability, her2Multiplier, riskLevelOf]
  norm_num

/-- Modelled from the spec: the per-cancer-type raw-probability table exactly
as spec section 4.1 words it (explicit interval guards, band base times
multiplier).  This is the spec-side definition for the refinement claim C2;
`rawProbability` above is the code-side one.  In each final `else` branch the
remaining guard (biomarker below the lower threshold) holds by totality of
the order. -/
def specRawProbability (d : DiagnosisInput) : ℚ :=
  match d.cancerType with
  | .liver =>
      if 400 < d.biomarker1 then 75 + min (d.tumorSize * 3) 20
      else if 20 < d.biomarker1 ∧ d.biomarker1 ≤ 400 then 45 + min (d.tumorSize * 2) 25
      else 15 + min d.tumorSize 15
  | .lung =>
      (if 10 < d.biomarker1 then 60 + min (d.tumorSize * 4) 25
       else if 5 < d.biomarker1 ∧ d.biomarker1 ≤ 10 then 35 + min (d.tumorSize * 3) 20
       else 10 + min (d.tumorSize * 2) 15) *
      (if d.additionalFactor = some "current" then 18/10
       else if d.additionalFactor = some "former" then 13/10
       else 1)
  | .breast =>
      (if 100 < d.biomarker1 then 70 + min (d.tumorSize * 3) 20
       else if 30 < d.biomarker1 ∧ d.biomarker1 ≤ 100 then 40 + min (d.tumorSize * 2) 25
       else 12 + min d.tumorSize 15) *
      (if d.biomarker2 = some "positive" then 14/10 else 1)

/-- The code's branch chain and the spec's interval table agree everywhere. -/
theorem rawProbability_eq_spec (d : DiagnosisInput) :
    rawProbability d = specRawProbability d := by
  obtain ⟨ct, t, b1, b2, af⟩ := d
  cases ct <;>
    simp only [rawProbability, specRawProbability, smokingMultiplier, her2Multiplier] <;>
    split_ifs <;>
    first
      | rfl
      | (exfalso; push_neg at *; try simp_all; try linarith)

/-- C2: for every valid input, `computeRisk` produces exactly the raw
probability of the spec section 4.1 per-type table, rounded to the nearest
integer and clamped to at most 98. -/
theorem computeRisk_follows_spec_table (d : DiagnosisInput) (h : 0 < d.tumorSize) :
    (computeRisk d).probability = min (jsRound (specRawProbability d)) 98 := by
  show min (jsRound (rawProbability d)) 98 = min (jsRound (specRawProbability d)) 98
  rw [rawProbability_eq_spec]

/-- Witness for C2 at spec example 1 (liver, AFP 500, tumour 5 cm). -/
theorem computeRisk_follows_spec_table_witness :
    0 < (DiagnosisInput.mk .liver 5 500 none none).tumorSize ∧
      (computeRisk (DiagnosisInput.mk .liver 5 500 none none)).probability
        = min (jsRound (specRawProbability (DiagnosisInput.mk .liver 5 500 none none))) 98 :=
  ⟨by decide, computeRisk_follows_spec_table _ (by decide)⟩

/-- The lung smoking multiplier is at least 1 in every case. -/
theorem smokingMultiplier_ge_one (af : Option String) : 1 ≤ smokingMultiplier af := by
  unfold smokingMultiplier
  split_ifs <;> norm_num

/-- The breast HER2 multiplier is at least 1 in every case. -/
theorem her2Multiplier_ge_one (b2 : Option String) : 1 ≤ her2Multiplier b2 := by
  unfold her2Multiplier
  split_ifs <;> norm_num

/-- On every valid input the raw probability is at least 10: each band base is
at least 10, each capped tumour-size term is non-negative, and each
multiplier is at least 1. -/
theorem rawProbability_ge_ten (d : DiagnosisInput) (h : 0 < d.tumorSize) :
    10 ≤ rawProbability d := by
  obtain ⟨ct, t, b1, b2, af⟩ := d
  have ht : (0:ℚ) < t := h
  have hm := smokingMultiplier_ge_one af
  have hh := her2Multiplier_ge_one b2
  have h1 : 0 ≤ min (t * 3) 20 := le_min (by linarith) (by norm_num)
  have h2 : 0 ≤ min (t * 2) 25 := le_min (by linarith) (by norm_num)
  have h3 : 0 ≤ min t 15 := le_min (by linarith) (by norm_num)
  have h4 : 0 ≤ min (t * 4) 25 := le_min (by linarith) (by norm_num)
  have h5 : 0 ≤ min (t * 2) 15 := le_min (by linarith) (by norm_num)
  cases ct <;> simp only [rawProbability] <;> split_ifs <;>
    nlinarith [hm, hh, h1, h2, h3, h4, h5]

/-- C3: on every valid input the reported probability is an integer in
[0, 98] (integrality is by type: the `probability` field is `ℤ`). -/
theorem riskProbability_in_range (d : DiagnosisInput) (h : 0 < d.tumorSize) :
    0 ≤ (computeRisk d).probability ∧ (computeRisk d).probability ≤ 98 := by
  have h10 := rawProbability_ge_ten d h
  constructor
  · show (0:ℤ) ≤ min (jsRound (rawProbability d)) 98
    refine le_min ?_ (by norm_num)
    exact Int.le_floor.mpr (by push_cast; linarith)
  · exact min_le_right _ _

/-- Witness for C3 at spec example 3 (breast, CA 15-3 at 150, tumour 4 cm,
HER2 positive). -/
theorem riskProbability_in_range_witness :
    0 < (DiagnosisInput.mk .breast 4 150 (some "positive") none).tumorSize ∧
      (0 ≤ (computeRisk (DiagnosisInput.mk .breast 4 150 (some "positive") none)).probability ∧
        (computeRisk (DiagnosisInput.mk .breast 4 150 (some "positive") none)).probability ≤ 98) :=
  ⟨by decide, riskProbability_in_range _ (by decide)⟩

/-- C10: on every valid input the reported probability is in fact at least
10, so values in [0, 10) never occur even though the spec only promises a
lower bound of 0. -/
theorem riskProbability_ge_ten (d : DiagnosisInput) (h : 0 < d.tumorSize) :
    10 ≤ (computeRisk d).probability := by
  have h10 := rawProbability_ge_ten d h
  show (10:ℤ) ≤ min (jsRound (rawProbability d)) 98
  refine le_min ?_ (by norm_num)
  exact Int.le_floor.mpr (by push_cast; linarith)

/-- Witness for C10 at the smallest band (lung, CEA 3, tumour 0.1 cm, no
smoking history), where the probability is exactly 10. -/
theorem riskProbability_ge_ten_witness :
    0 < (DiagnosisInput.mk .lung (1/10) 3 none none).tumorSize ∧
      10 ≤ (computeRisk (DiagnosisInput.mk .lung (1/10) 3 none none)).probability :=
  ⟨by norm_num, riskProbability_ge_ten _ (by norm_num)⟩

/-- C4: the reported risk level is High exactly when the reported probability
is at least 70, Moderate exactly when it is in [40, 70), and Low exactly when
it is below 40 — for every input, because the level is computed from the
already clamped probability. -/
theorem riskLevel_bands (d : DiagnosisInput) :
    ((computeRisk d).riskLevel = .High ↔ 70 ≤ (computeRisk d).probability) ∧
    ((computeRisk d).riskLevel = .Moderate ↔
      40 ≤ (computeRisk d).probability ∧ (computeRisk d).probability < 70) ∧
    ((computeRisk d).riskLevel = .Low ↔ (computeRisk d).probability < 40) := by
  show (riskLevelOf (riskProbability d) = _ ↔ 70 ≤ riskProbability d) ∧
    (riskLevelOf (riskProbability d) = _ ↔ 40 ≤ riskProbability d ∧ riskProbability d < 70) ∧
    (riskLevelOf (riskProbability d) = _ ↔ riskProbability d < 40)
  unfold riskLevelOf
  split_ifs with h1 h2 <;> refine ⟨⟨?_, ?_⟩, ⟨?_, ?_⟩, ⟨?_, ?_⟩⟩ <;> simp_all <;> omega

/-- C9: for liver inputs with all other fields fixed, the reported
probability is monotone non-decreasing in the tumour size. -/
theorem liver_probability_monotone (b1 : ℚ) (b2 af : Option String) (t1 t2 : ℚ)
    (h0 : 0 < t1) (h12 : t1 ≤ t2) :
    (computeRisk (DiagnosisInput.mk .liver t1 b1 b2 af)).probability ≤
      (computeRisk (DiagnosisInput.mk .liver t2 b1 b2 af)).probability := by
  have hraw : rawProbability (DiagnosisInput.mk .liver t1 b1 b2 af) ≤
      rawProbability (DiagnosisInput.mk .liver t2 b1 b2 af) := by
    simp only [rawProbability]
    split_ifs
    · have h3 : t1 * 3 ≤ t2 * 3 := by linarith
      have := min_le_min h3 (le_refl (20:ℚ))
      linarith
    · have h3 : t1 * 2 ≤ t2 * 2 := by linarith
      have := min_le_min h3 (le_refl (25:ℚ))
      linarith
    · have := min_le_min h12 (le_refl (15:ℚ))
      linarith
  show min (jsRound (rawProbability (DiagnosisInput.mk .liver t1 b1 b2 af))) 98 ≤
    min (jsRound (rawProbability (DiagnosisInput.mk .liver t2 b1 b2 af))) 98
  exact min_le_min (Int.floor_mono (by linarith)) (le_refl _)

/-- Witness for C9: AFP 100 fixed, tumour size 1 cm versus 2 cm. -/
theorem liver_probability_monotone_witness :
    0 < (1:ℚ) ∧ (1:ℚ) ≤ 2 ∧
      (computeRisk (DiagnosisInput.mk .liver 1 100 none none)).probability ≤
        (computeRisk (DiagnosisInput.mk .liver 2 100 none none)).probability :=
  ⟨by decide, by decide, liver_probability_monotone 100 none none 1 2 (by decide) (by decide)⟩

/-- A row of the `doctor_requests` table (src/shared/schema.ts:94-106).
`status` is a free-form text column whose documented values are
pending, accepted, declined and reschedule; `dataShare` is an opaque JSON
payload, embedded as an optional string; timestamps are abstract ticks. -/
structure DoctorRequest where
  id : Nat
  patientId : Nat
  doctorId : Nat
  hospitalId : Option Nat
  status : String
  note : Option String
  scheduleNote : Option String
  proposedSlot : Option String
  dataShare : Option String
  createdAt : Nat
  updatedAt : Nat
deriving DecidableEq

/-- A row of the `users` table restricted to what the request handlers read:
the id and the role string. -/
structure User where
  id : Nat
  role : String
deriving DecidableEq

/-- A row of the `patients` table restricted to what the request handlers
read: the patient id and the owning user id. -/
structure Patient where
  id : Nat
  userId : Nat
deriving DecidableEq

/-- `storage.getDoctorRequestById` (storage.ts:180-183): first row whose id
matches.  (`id` is a serial primary key, so at most one row matches.) -/
def getDoctorRequestById (store : List DoctorRequest) (id : Nat) : Option DoctorRequest :=
  store.find? (fun r => r.id == id)

/-- `storage.getDoctorRequestsByDoctor` (storage.ts:191-195): all rows with
the given doctor id.  The ORDER BY createdAt DESC clause is dropped: every
use in the claims is order-independent (an existence test and a filter). -/
def getDoctorRequestsByDoctor (store : List DoctorRequest) (doctorId : Nat) : List DoctorRequest :=
  store.filter (fun r => r.doctorId == doctorId)

/-- The access gate of the doctor branch of `GET /api/patients/:id`
(textExtractor.ts:643-658): the handler loads the doctor's requests and
tests `requests.some((r) => r.patientId === id && r.status === "approved")`;
403 is returned when this is false.  This is the predicate the spec names
`canDoctorAccessPatientCase`. -/
def canDoctorAccessPatientCase (store : List DoctorRequest) (doctorId patientId : Nat) : Bool :=
  (getDoctorRequestsByDoctor store doctorId).any
    (fun r => r.patientId == patientId && r.status == "approved")

/-- Modelled from the spec: `canDoctorAccessPatientCase(doctorId, patientId)`
is true iff there exists at least one DoctorRequest with that doctor/patient
pair and status accepted.  Spec-side predicate for claim C1. -/
def canDoctorAccessPatientCaseSpec (store : List DoctorRequest) (doctorId patientId : Nat) : Prop :=
  ∃ r ∈ store, r.doctorId = doctorId ∧ r.patientId = patientId ∧ r.status = "accepted"

/-- The `accepted`-requests filter of `GET /api/doctor/patients`
(textExtractor.ts:810-814), which — unlike the gate above — matches on the
status value the system actually writes. -/
def acceptedRequests (store : List DoctorRequest) (doctorId : Nat) : List DoctorRequest :=
  (getDoctorRequestsByDoctor store doctorId).filter (fun r => r.status == "accepted")

/-- The body fields of `PATCH /api/doctor-requests/:id` that the handler
destructures (textExtractor.ts:871): each is absent or a string; an absent
field leaves the column untouched (drizzle skips undefined values). -/
structure UpdatePatch where
  status : Option String
  scheduleNote : Option String
  proposedSlot : Option String
deriving DecidableEq

/-- The row mutation performed by `storage.updateDoctorRequest`
(storage.ts:197-203): overwrite status/scheduleNote/proposedSlot where
supplied and refresh `updatedAt`. -/
def applyPatch (body : UpdatePatch) (now : Nat) (r : DoctorRequest) : DoctorRequest :=
  { r with
    status := body.status.getD r.status
    scheduleNote := (body.scheduleNote.map some).getD r.scheduleNote
    proposedSlot := (body.proposedSlot.map some).getD r.proposedSlot
    updatedAt := now }

/-- `storage.updateDoctorRequest` (storage.ts:197-203): UPDATE ... WHERE
id = :id RETURNING — every matching row is rewritten in place, and the first
updated row (or none) is returned alongside the new table state. -/
def updateDoctorRequest (store : List DoctorRequest) (id : Nat) (body : UpdatePatch)
    (now : Nat) : Option DoctorRequest × List DoctorRequest :=
  let store2 := store.map (fun r => if r.id == id then applyPatch body now r else r)
  ((store2.filter (fun r => r.id == id)).head?, store2)

/-- Outcomes of `PATCH /api/doctor-requests/:id`, as the handler reports them
to the HTTP layer: 404, 403, or 200 with the updated row. -/
inductive PatchOutcome
  | notFound
  | forbidden
  | ok (request : Option DoctorRequest)
deriving DecidableEq

/-- The `PATCH /api/doctor-requests/:id` handler (textExtractor.ts:868-896).
`actorDoctor` is the doctor row looked up from the session user
(`storage.getDoctorByUserId`), reduced to its id; `none` models a session
user with no doctor row.  The handler 404s when no request has the id, 403s
unless the actor is the doctor the request is addressed to, and otherwise
applies the caller-supplied patch unconditionally. -/
def patchDoctorRequestHandler (store : List DoctorRequest) (actorDoctor : Option Nat)
    (id : Nat) (body : UpdatePatch) (now : Nat) : PatchOutcome × List DoctorRequest :=
  match getDoctorRequestById store id with
  | none => (.notFound, store)
  | some existing =>
    match actorDoctor with
    | none => (.forbidden, store)
    | some d =>
      if existing.doctorId ≠ d then (.forbidden, store)
      else
        let result := updateDoctorRequest store id body now
        (.ok result.1, result.2)

/-- The body fields of `POST /api/doctor-requests` (textExtractor.ts:849).
The handler destructures only doctorId/hospitalId/note/dataShare; the
`patientId` and `status` fields below model a caller that also smuggles
those keys into the JSON payload — the handler never reads them. -/
structure CreateBody where
  doctorId : Nat
  hospitalId : Option Nat
  note : Option String
  dataShare : Option String
  patientId : Option Nat
  status : Option String
deriving DecidableEq

/-- Outcomes of `POST /api/doctor-requests`: 403 (session user is not a
patient — the `requireRole("patient")` middleware and the handler's own
role re-check), 404 (no patient row for the user), or 200 with the created
row. -/
inductive CreateOutcome
  | notPatient
  | patientNotFound
  | ok (request : DoctorRequest)
deriving DecidableEq

/-- The `POST /api/doctor-requests` handler (textExtractor.ts:837-865) over
`storage.createDoctorRequest` (storage.ts:175-178): resolve the session user
to a patient row, then append a row with `patientId` taken from that row and
`status` hard-coded to "pending".  `newId` is the serial id the database
assigns, `now` the insertion timestamp. -/
def createDoctorRequestHandler (store : List DoctorRequest) (patientsTable : List Patient)
    (user : User) (body : CreateBody) (newId now : Nat) :
    CreateOutcome × List DoctorRequest :=
  if user.role ≠ "patient" then (.notPatient, store)
  else
    match patientsTable.find? (fun p => p.userId == user.id) with
    | none => (.patientNotFound, store)
    | some patient =>
      let req : DoctorRequest :=
        { id := newId
          patientId := patient.id
          doctorId := body.doctorId
          hospitalId := body.hospitalId
          status := "pending"
          note := body.note
          scheduleNote := none
          proposedSlot := none
          dataShare := body.dataShare
          createdAt := now
          updatedAt := now }
      (.ok req, store ++ [req])

/-- A stored request from patient 3 addressed to doctor 7 that the doctor
has accepted. -/
def acceptedReq : DoctorRequest :=
  { id := 1, patientId := 3, doctorId := 7, hospitalId := none, status := "accepted",
    note := none, scheduleNote := none, proposedSlot := none, dataShare := none,
    createdAt := 0, updatedAt := 0 }

/-- A store holding exactly one request: doctor 7, patient 3, status
accepted — the configuration in which the spec says the access gate must
grant access. -/
def acceptedStore : List DoctorRequest := [acceptedReq]

/-- C1 (code bug): with a stored accepted request for doctor 7 and patient 3,
the spec-side predicate grants access, but the code's gate tests for the
status string "approved" — which nothing in the system ever writes (creation
hard-codes "pending", the doctor UI sends accepted/declined/reschedule, and
schema.ts:99 documents exactly those four values) — so the gate denies the
pair and the handler answers 403.  The sibling handler's filter on the same
relationship matches "accepted", confirming the divergence. -/
theorem access_gate_rejects_accepted_relationship :
    canDoctorAccessPatientCase acceptedStore 7 3 = false ∧
      canDoctorAccessPatientCaseSpec acceptedStore 7 3 ∧
      acceptedRequests acceptedStore 7 ≠ [] := by
  refine ⟨by decide, ?_, by decide⟩
  exact ⟨acceptedReq, by decide, by decide, by decide, by decide⟩

/-- C6: the PATCH handler reports "forbidden" whenever the actor's doctor id
differs from the target request's `doctorId`, and "not found" whenever no
stored request has the id — and in both cases it returns the store
unchanged. -/
theorem patch_forbidden_or_not_found (store : List DoctorRequest) (d reqId : Nat)
    (body : UpdatePatch) (now : Nat) :
    (∀ r, getDoctorRequestById store reqId = some r → r.doctorId ≠ d →
      patchDoctorRequestHandler store (some d) reqId body now = (.forbidden, store)) ∧
    (getDoctorRequestById store reqId = none →
      patchDoctorRequestHandler store (some d) reqId body now = (.notFound, store)) := by
  constructor
  · intro r hr hne
    unfold patchDoctorRequestHandler
    rw [hr]
    simp [hne]
  · intro hnone
    unfold patchDoctorRequestHandler
    rw [hnone]

/-- Witness for C6: doctor 8 attempts to transition doctor 7's request
(forbidden), and anyone attempts a transition on an absent id 99
(not found); the store is untouched both times. -/
theorem patch_forbidden_or_not_found_witness :
    patchDoctorRequestHandler acceptedStore (some 8) 1 ⟨some "declined", none, none⟩ 5
        = (.forbidden, acceptedStore) ∧
      patchDoctorRequestHandler acceptedStore (some 8) 99 ⟨some "declined", none, none⟩ 5
        = (.notFound, acceptedStore) :=
  ⟨(patch_forbidden_or_not_found acceptedStore 8 1 ⟨some "declined", none, none⟩ 5).1
      acceptedReq (by decide) (by decide),
    (patch_forbidden_or_not_found acceptedStore 8 99 ⟨some "declined", none, none⟩ 5).2
      (by decide)⟩

/-- C7: whenever the create handler succeeds, the session user has the
patient role, the created request's `patientId` is the id of the patient row
owned by that very user (the payload cannot name another patient), its
status is "pending" no matter what the payload contained, and the store
grows append-only by that one row. -/
theorem create_request_authenticated_pending (store : List DoctorRequest)
    (patientsTable : List Patient) (user : User) (body : CreateBody) (newId now : Nat)
    (req : DoctorRequest) (store2 : List DoctorRequest)
    (h : createDoctorRequestHandler store patientsTable user body newId now
      = (.ok req, store2)) :
    user.role = "patient" ∧
    (∃ p, patientsTable.find? (fun q => q.userId == user.id) = some p ∧
      p.userId = user.id ∧ req.patientId = p.id) ∧
    req.status = "pending" ∧
    store2 = store ++ [req] := by
  unfold createDoctorRequestHandler at h
  split at h
  · exact absurd h (by simp)
  · rename_i hrole
    cases hfind : patientsTable.find? (fun p => p.userId == user.id) with
    | none => rw [hfind] at h; exact absurd h (by simp)
    | some p =>
      rw [hfind] at h
      have hp : p.userId = user.id := by
        have := List.find?_some hfind
        simpa using this
      have hpair := Prod.mk.injEq .. ▸ h
      simp only [Prod.mk.injEq, CreateOutcome.ok.injEq] at hpair
      obtain ⟨hreq, hstore⟩ := hpair
      subst hreq
      exact ⟨not_ne_iff.mp hrole, ⟨p, rfl, hp, rfl⟩, rfl, hstore.symm⟩

/-- The row the create handler appends in the witness scenarios: serial id 2,
patient row 3, doctor 7, inserted at tick 5. -/
def pendingReq : DoctorRequest :=
  { id := 2, patientId := 3, doctorId := 7, hospitalId := none, status := "pending",
    note := none, scheduleNote := none, proposedSlot := none, dataShare := none,
    createdAt := 5, updatedAt := 5 }

/-- Witness for C7: user 9 (role patient, patient row 3) creates a request to
doctor 7; the payload smuggles in patientId 99 and status "accepted", and the
handler ignores both. -/
theorem create_request_authenticated_pending_witness :
    (User.mk 9 "patient").role = "patient" ∧
    (∃ p, ([Patient.mk 3 9].find? (fun q => q.userId == (User.mk 9 "patient").id)) = some p ∧
      p.userId = (User.mk 9 "patient").id ∧ pendingReq.patientId = p.id) ∧
    pendingReq.status = "pending" ∧
    ([pendingReq] : List DoctorRequest) = [] ++ [pendingReq] :=
  create_request_authenticated_pending [] [Patient.mk 3 9] (User.mk 9 "patient")
    (CreateBody.mk 7 none none none (some 99) (some "accepted")) 2 5 pendingReq [pendingReq] rfl

/-- C8: `updateDoctorRequest` deletes nothing (the table keeps its length),
leaves every non-matching row completely unchanged, and on the matching row
changes only status, scheduleNote and proposedSlot — to the caller-supplied
values, keeping each field whose patch entry is absent — while refreshing
`updatedAt`; id, patientId, doctorId, hospitalId, note, dataShare and
createdAt survive every update. -/
theorem update_request_frame (store : List DoctorRequest) (reqId : Nat) (body : UpdatePatch)
    (now : Nat) (i : Nat) (r : DoctorRequest) (hr : store[i]? = some r) :
    (updateDoctorRequest store reqId body now).2.length = store.length ∧
    ∃ r2, (updateDoctorRequest store reqId body now).2[i]? = some r2 ∧
      r2.id = r.id ∧ r2.patientId = r.patientId ∧ r2.doctorId = r.doctorId ∧
      r2.hospitalId = r.hospitalId ∧ r2.note = r.note ∧ r2.dataShare = r.dataShare ∧
      r2.createdAt = r.createdAt ∧
      (r.id ≠ reqId → r2 = r) ∧
      (r.id = reqId →
        r2.status = body.status.getD r.status ∧
        r2.scheduleNote = (body.scheduleNote.map some).getD r.scheduleNote ∧
        r2.proposedSlot = (body.proposedSlot.map some).getD r.proposedSlot ∧
        r2.updatedAt = now) := by
  constructor
  · simp [updateDoctorRequest]
  · refine ⟨if r.id == reqId then applyPatch body now r else r, ?_, ?_⟩
    · simp [updateDoctorRequest, List.getElem?_map, hr]
    · by_cases hid : r.id = reqId
      · simp [hid, applyPatch]
      · simp [hid, applyPatch]

/-- Witness for C8: patch the stored accepted request (id 1) with a new
status and schedule note at tick 9; id, ownership, note, dataShare and
createdAt survive, updatedAt becomes 9. -/
theorem update_request_frame_witness :
    (updateDoctorRequest acceptedStore 1 (UpdatePatch.mk (some "reschedule") (some "next week") none) 9).2.length
        = acceptedStore.length ∧
    ∃ r2, (updateDoctorRequest acceptedStore 1 (UpdatePatch.mk (some "reschedule") (some "next week") none) 9).2[0]? = some r2 ∧
      r2.id = acceptedReq.id ∧ r2.patientId = acceptedReq.patientId ∧
      r2.doctorId = acceptedReq.doctorId ∧ r2.hospitalId = acceptedReq.hospitalId ∧
      r2.note = acceptedReq.note ∧ r2.dataShare = acceptedReq.dataShare ∧
      r2.createdAt = acceptedReq.createdAt ∧
      (acceptedReq.id ≠ 1 → r2 = acceptedReq) ∧
      (acceptedReq.id = 1 →
        r2.status = (UpdatePatch.mk (some "reschedule") (some "next week") none).status.getD acceptedReq.status ∧
        r2.scheduleNote = ((UpdatePatch.mk (some "reschedule") (some "next week") none).scheduleNote.map some).getD acceptedReq.scheduleNote ∧
        r2.proposedSlot = ((UpdatePatch.mk (some "reschedule") (some "next week") none).proposedSlot.map some).getD acceptedReq.proposedSlot ∧
        r2.updatedAt = 9) :=
  update_request_frame acceptedStore 1 (UpdatePatch.mk (some "reschedule") (some "next week") none) 9 0
    acceptedReq rfl

/-- Counterexample to C5 as stated: the PATCH handler never inspects the
current status or validates the new one, so the addressed doctor (7) can
move their request out of the terminal status "accepted" into "approved", a
value outside the documented four-value enum — both of which C5 says can
never happen. -/
theorem status_transition_counterexample :
    acceptedStore.map (fun r => r.status) = ["accepted"] ∧
    ((patchDoctorRequestHandler acceptedStore (some 7) 1
        (UpdatePatch.mk (some "approved") none none) 9).2.map (fun r => r.status))
      = ["approved"] ∧
    "approved" ∉ ["pending", "accepted", "declined", "reschedule"] := by
  exact ⟨by decide, by decide, by decide⟩

/-- C5 as amended: creation always stores status "pending"; the only other
status mutation is the PATCH handler, which — after its ownership check —
overwrites the status of the addressed request with whatever value the
caller supplied (keeping it when the patch omits one), regardless of the
current status: every row after a PATCH is either an untouched old row or
the caller's patch of an old row addressed to the acting doctor. -/
theorem request_status_discipline (store : List DoctorRequest)
    (huniq : ∀ a ∈ store, ∀ b ∈ store, a.id = b.id → a = b) :
    (∀ patientsTable user body newId now req store2,
      createDoctorRequestHandler store patientsTable user body newId now
        = (.ok req, store2) → req.status = "pending") ∧
    (∀ actor reqId body now out store2,
      patchDoctorRequestHandler store (some actor) reqId body now = (out, store2) →
      ∀ r2 ∈ store2, r2 ∈ store ∨
        ∃ r ∈ store, r.id = reqId ∧ r.doctorId = actor ∧ r2 = applyPatch body now r) := by
  constructor
  · intro patientsTable user body newId now req store2 h
    unfold createDoctorRequestHandler at h
    split at h
    · exact absurd h (by simp)
    · cases hfind : patientsTable.find? (fun p => p.userId == user.id) with
      | none => rw [hfind] at h; exact absurd h (by simp)
      | some p =>
        rw [hfind] at h
        simp only [Prod.mk.injEq, CreateOutcome.ok.injEq] at h
        obtain ⟨hreq, -⟩ := h
        rw [← hreq]
  · intro actor reqId body now out store2 h r2 hr2
    unfold patchDoctorRequestHandler at h
    cases hfind : getDoctorRequestById store reqId with
    | none =>
      rw [hfind] at h
      injection h with h1 h2
      subst h2
      exact Or.inl hr2
    | some existing =>
      rw [hfind] at h
      dsimp only at h
      by_cases hd : existing.doctorId ≠ actor
      · rw [if_pos hd] at h
        injection h with h1 h2
        subst h2
        exact Or.inl hr2
      · rw [if_neg hd] at h
        injection h with h1 h2
        subst h2
        simp only [updateDoctorRequest] at hr2
        obtain ⟨r, hrmem, hfr⟩ := List.mem_map.mp hr2
        by_cases hid : r.id = reqId
        · right
          have hex_mem : existing ∈ store := List.mem_of_find?_eq_some hfind
          have hex_id : existing.id = reqId := by
            simpa using List.find?_some hfind
          have hre : r = existing := huniq r hrmem existing hex_mem (by rw [hid, hex_id])
          refine ⟨r, hrmem, hid, ?_, ?_⟩
          · rw [hre]
            exact not_not.mp hd
          · rw [← hfr]
            simp [hid]
        · left
          have : r2 = r := by rw [← hfr]; simp [hid]
          rw [this]
          exact hrmem

/-- Witness for C5 amended: on the single-row accepted store (distinct ids
hold trivially), a create yields status "pending" and the row produced by
doctor 7's "approved" patch is exactly the patch of the stored request
addressed to doctor 7. -/
theorem request_status_discipline_witness :
    pendingReq.status = "pending" ∧
    (applyPatch (UpdatePatch.mk (some "approved") none none) 9 acceptedReq ∈ acceptedStore ∨
      ∃ r ∈ acceptedStore, r.id = 1 ∧ r.doctorId = 7 ∧
        applyPatch (UpdatePatch.mk (some "approved") none none) 9 acceptedReq
          = applyPatch (UpdatePatch.mk (some "approved") none none) 9 r) :=
  ⟨(request_status_discipline acceptedStore (by decide)).1 [Patient.mk 3 9]
      (User.mk 9 "patient") (CreateBody.mk 7 none none none none (some "accepted")) 2 5
      pendingReq (acceptedStore ++ [pendingReq]) rfl,
    (request_status_discipline acceptedStore (by decide)).2 7 1
      (UpdatePatch.mk (some "approved") none none) 9
      (patchDoctorRequestHandler acceptedStore (some 7) 1
        (UpdatePatch.mk (some "approved") none none) 9).1
      (patchDoctorRequestHandler acceptedStore (some 7) 1
        (UpdatePatch.mk (some "approved") none none) 9).2
      rfl
      (applyPatch (UpdatePatch.mk (some "approved") none none) 9 acceptedReq)
      (by decide)⟩
